import Mathlib

/-!
Verification of the safe expression evaluator and history logic of the
interest-api repository (src/main.py, src/api.py).

The core of the repository is `evaluate_expression` in src/main.py: it rewrites
every ASCII percent character to the four characters /100, parses the resulting
string with Python's ast module in eval mode, and reduces the syntax tree with
`safe_eval`, an allow-list interpreter over `ast` nodes. This file gives a
shallow embedding of that pipeline:

* Python numeric values are modelled by `PyVal`: arbitrary-precision integers
  as `Int`, floats as exact rationals (`ℚ`), booleans (in Python `bool` is a
  subclass of `int`, so `isinstance(True, int)` holds), and complex numbers as
  pairs of rationals. The exact-rational idealization of IEEE doubles is
  faithful for every arithmetic fact any claim depends on (all the concrete
  inputs below stay inside small decimal fractions, where double arithmetic is
  exact or the claim only concerns the error/success kind of the result).
* Transcendental functions (sin, cos, tan, log, log10, non-integral powers,
  irrational square roots) have no rational values; they are represented by
  explicitly documented stand-in functions. No claim depends on their numeric
  output, only on their domain checks, arity behaviour and result kind, which
  are modelled faithfully.
* The syntax tree is `Expr`, mirroring the `ast` node kinds `safe_eval`
  inspects (`Constant`, `BinOp`, `UnaryOp`, `Call`, `Name`) plus representative
  node kinds that fall into its final catch-all (`Attribute`, `Compare`,
  `Lambda`). The `ast.Expression` wrapper of eval-mode parses is unwrapped by
  the parser model, exactly as the first branch of `safe_eval` does.
* Python exceptions are modelled by `PyErr`; `safe_eval` and the parser return
  an `Except PyErr PyVal`.
* The tokenizer/parser models Python's expression grammar restricted to the
  constructs reachable here: numeric literals (including imaginary literals
  such as 2j), single-quoted string literals, identifiers and the keyword
  literals True/False/None, the operators + - * / % **, parentheses, and call
  syntax with positional and keyword arguments.

Rational arithmetic is implemented directly on numerators and denominators via
`Rat.divInt` (the Batteries field operations on `ℚ` are `@[irreducible]`, which
would block kernel evaluation of concrete test inputs); bridge lemmas at the
end of the definitions section prove these helpers equal to the standard
Mathlib operations on `ℚ`.
-/

namespace PyCalc

/-! ## Exact rational helpers (kernel-computable) -/

/-- Addition on `ℚ` written via `Rat.divInt`; provably equal to `+`
(see `qadd_eq_add`). -/
def qadd (a b : ℚ) : ℚ := Rat.divInt (a.num * b.den + b.num * a.den) (a.den * b.den)

/-- Subtraction on `ℚ` via `Rat.divInt`; provably equal to `-`. -/
def qsub (a b : ℚ) : ℚ := Rat.divInt (a.num * b.den - b.num * a.den) (a.den * b.den)

/-- Multiplication on `ℚ` via `Rat.divInt`; provably equal to `*`. -/
def qmul (a b : ℚ) : ℚ := Rat.divInt (a.num * b.num) (a.den * b.den)

/-- Division on `ℚ` via `Rat.divInt`; provably equal to `/` (both send a zero
divisor to zero, and every call site below guards the divisor anyway). -/
def qdiv (a b : ℚ) : ℚ := Rat.divInt (a.num * b.den) (a.den * b.num)

/-- Negation on `ℚ`. -/
def qneg (a : ℚ) : ℚ := Rat.neg a

/-- Natural-number power on `ℚ`. -/
def qpowN (a : ℚ) : Nat → ℚ
  | 0 => 1
  | n + 1 => qmul (qpowN a n) a

/-- Integer power on `ℚ` (negative exponents only reached with nonzero base). -/
def qzpow (a : ℚ) (n : Int) : ℚ :=
  if 0 ≤ n then qpowN a n.toNat else qdiv 1 (qpowN a (-n).toNat)

/-- Strictly-less-than on `ℚ` as a Bool. -/
def qlt (a b : ℚ) : Bool := Rat.blt a b

/-- Less-or-equal on `ℚ` as a Bool. -/
def qle (a b : ℚ) : Bool := !(Rat.blt b a)

/-- Zero test on `ℚ` (a rational is zero iff its numerator is). -/
def qisZero (a : ℚ) : Bool := a.num == 0

/-- Fuel-driven integer square root search: largest k with k*k ≤ n,
found by linear scan (the fuel n suffices). -/
def natSqrtGo (n : Nat) : Nat → Nat → Nat
  | 0, k => k
  | fuel + 1, k => if (k + 1) * (k + 1) ≤ n then natSqrtGo n fuel (k + 1) else k

/-- Integer square root (kernel-computable). -/
def natSqrt (n : Nat) : Nat := natSqrtGo n n 0

/-- Square root on nonnegative rationals. Agrees with the real square root on
perfect squares (the only values any claim inspects); on other inputs it is a
rational stand-in for the irrational value `math.sqrt` approximates. -/
def ratSqrt (q : ℚ) : ℚ :=
  Rat.divInt (Int.ofNat (natSqrt q.num.toNat)) (Int.ofNat (natSqrt q.den))

/-- Stand-in for the transcendental real power b^e with b > 0 and non-integral
e (`float.__pow__`). No claim depends on its numeric value, only on the fact
that the result is a real float. -/
def rpowA (b _e : ℚ) : ℚ := b

/-- Stand-in for the principal complex power (real and imaginary part) that
Python's `**` returns for a negative base and non-integral exponent. No claim
depends on the numeric components, only on the result being complex. -/
def cpowA (_b _e : ℚ) : ℚ × ℚ := (0, 1)

/-- Stand-in for the complex power components when either operand is already
complex. Value not claim-relevant. -/
def cpow2A (_ar _ai _br _bi : ℚ) : ℚ × ℚ := (0, 1)

/-- Stand-in for `math.sin` (transcendental; value not claim-relevant). -/
def sinA (q : ℚ) : ℚ := q

/-- Stand-in for `math.cos` (transcendental; value not claim-relevant). -/
def cosA (q : ℚ) : ℚ := qsub 1 q

/-- Stand-in for `math.tan` (transcendental; value not claim-relevant). -/
def tanA (q : ℚ) : ℚ := q

/-- Stand-in for `math.log` on positive rationals (transcendental; value not
claim-relevant, the domain check is modelled exactly). -/
def logA (q : ℚ) : ℚ := qsub q 1

/-- Stand-in for two-argument `math.log x base` (transcendental). -/
def logBaseA (q _b : ℚ) : ℚ := qsub q 1

/-- Stand-in for `math.log10` on positive rationals (transcendental). -/
def log10A (q : ℚ) : ℚ := qsub q 1

/-- Round-half-to-even on exact rationals, Python's `round` for one argument. -/
def rhe (q : ℚ) : Int :=
  let f := Rat.floor q
  let r := qsub q (Rat.ofInt f)
  if Rat.blt r (Rat.divInt 1 2) then f
  else if Rat.blt (Rat.divInt 1 2) r then f + 1
  else if f % 2 = 0 then f else f + 1

/-- Python's two-argument `round(float, ndigits)`: half-to-even at the given
decimal position, as a rational. -/
def rheAt (q : ℚ) (nd : Int) : ℚ :=
  qmul (Rat.ofInt (rhe (qmul q (qzpow (Rat.ofInt 10) nd)))) (qzpow (Rat.ofInt 10) (-nd))

/-! ## Values, errors, syntax trees -/

/-- Python constant literals as classified by the `ast.Constant` node:
plain ints, floats, booleans, strings, imaginary/complex literals, None. -/
inductive PyConst where
  | int (n : Int)
  | float (q : ℚ)
  | bool (b : Bool)
  | str (s : String)
  | complex (re im : ℚ)
  | noneLit
  deriving DecidableEq

/-- Python runtime values reachable in `safe_eval`: ints, floats (exact
rationals), bools (returned as-is by the `Constant` branch because Python's
`bool` is a subclass of `int`), and complex numbers (producible by `**`). -/
inductive PyVal where
  | int (n : Int)
  | float (q : ℚ)
  | bool (b : Bool)
  | complex (re im : ℚ)
  deriving DecidableEq

/-- Python exceptions surfaced by the pipeline: SyntaxError from `ast.parse`,
ValueError (raised explicitly by `safe_eval` and by math domain errors),
ZeroDivisionError, and TypeError (arity/argument-type failures). -/
inductive PyErr where
  | synError (msg : String)
  | valueError (msg : String)
  | zeroDivisionError (msg : String)
  | typeError (msg : String)
  deriving DecidableEq

/-- Binary operator node tags (`ast.BinOp.op`), including tags that are NOT in
ALLOWED_OPERATORS so that the allow-list check is a real check. -/
inductive BinOpK where
  | add | sub | mult | div | pow | mod
  | floorDiv | matMult | lshift | rshift | bitOr | bitXor | bitAnd
  deriving DecidableEq

/-- Unary operator node tags (`ast.UnaryOp.op`): USub and UAdd are in
ALLOWED_OPERATORS, Not and Invert are not. -/
inductive UnOpK where
  | usub | uadd | notK | invert
  deriving DecidableEq

mutual
/-- Python eval-mode syntax trees, restricted to the node kinds `safe_eval`
distinguishes plus representatives of its catch-all (`name` is `ast.Name`,
`attrAccess` is `ast.Attribute`, `compare`/`lambda` stand for the many node
kinds that hit the final `raise ValueError("Invalid expression")`). A call
carries its positional arguments and its keyword arguments; `safe_eval` reads
only `node.args`, never `node.keywords`. -/
inductive Expr where
  | const (c : PyConst)
  | name (id : String)
  | binop (op : BinOpK) (left right : Expr)
  | unaryop (op : UnOpK) (operand : Expr)
  | call (func : Expr) (args : ExprList) (keywords : KwList)
  | attrAccess (value : Expr) (attrName : String)
  | compare (left right : Expr)
  | lambda (body : Expr)

/-- Positional argument lists of a call node. -/
inductive ExprList where
  | nil
  | cons (head : Expr) (tail : ExprList)

/-- Keyword argument lists of a call node (keyword name and value). -/
inductive KwList where
  | nil
  | cons (kw : String) (value : Expr) (tail : KwList)
end

/-! ## Value classification and coercions -/

/-- Is the value a complex number? -/
def isComplexV : PyVal → Bool
  | .complex _ _ => true
  | _ => false

/-- Is the value a float? -/
def isFloatV : PyVal → Bool
  | .float _ => true
  | _ => false

/-- The rational magnitude of a real (non-complex) value; booleans coerce to
0/1 exactly as Python's `bool` does in arithmetic. The complex branch is
never consulted (all uses are guarded by `isComplexV`). -/
def realQ : PyVal → ℚ
  | .int n => Rat.ofInt n
  | .float q => q
  | .bool b => if b then 1 else 0
  | .complex _ _ => 0

/-- The integer magnitude of an int/bool value (guarded at every use). -/
def intOf : PyVal → Int
  | .int n => n
  | .bool b => if b then 1 else 0
  | .float q => q.num
  | .complex _ _ => 0

/-- View a value as a complex pair (re, im). -/
def toC : PyVal → ℚ × ℚ
  | .complex re im => (re, im)
  | v => (realQ v, 0)

/-- A real value equal to zero (int 0, float 0.0, or False); the right-operand
test for Python's division/modulo-by-zero errors. -/
def isRealZero : PyVal → Bool
  | .int n => n == 0
  | .float q => qisZero q
  | .bool b => !b
  | .complex _ _ => false

/-! ## The operator table (ALLOWED_OPERATORS of src/main.py, lines 17-20) -/

/-- Membership of a binary operator node tag in ALLOWED_OPERATORS. -/
def allowedBinOp : BinOpK → Bool
  | .add | .sub | .mult | .div | .pow | .mod => true
  | _ => false

/-- Membership of a unary operator node tag in ALLOWED_OPERATORS. -/
def allowedUnaryOp : UnOpK → Bool
  | .usub | .uadd => true
  | _ => false

/-- Python's `**` (`operator.pow`). Int bases with nonnegative int exponents
stay ints; a negative int exponent promotes to float (error on base 0);
with floats, an integral exponent follows exact real semantics, a
non-integral exponent on a negative base returns a COMPLEX number (CPython 3
behaviour of `float.__pow__`), on base zero it is 0.0 (or an error for a
negative exponent), and on a positive base it is a positive real, here the
stand-in `rpowA`. Complex operands produce a complex result (stand-in). -/
def pyPow (a b : PyVal) : Except PyErr PyVal :=
  if isComplexV a || isComplexV b then
    .ok (.complex (cpow2A (toC a).1 (toC a).2 (toC b).1 (toC b).2).1
                  (cpow2A (toC a).1 (toC a).2 (toC b).1 (toC b).2).2)
  else if !(isFloatV a || isFloatV b) then
    let x := intOf a
    let n := intOf b
    if 0 ≤ n then .ok (.int (x ^ n.toNat))
    else if x = 0 then .error (.zeroDivisionError "0.0 cannot be raised to a negative power")
    else .ok (.float (qzpow (Rat.ofInt x) n))
  else
    let bq := realQ a
    let e := realQ b
    if e.den = 1 then
      if qisZero bq && e.num < 0 then
        .error (.zeroDivisionError "0.0 cannot be raised to a negative power")
      else .ok (.float (qzpow bq e.num))
    else if qlt bq 0 then .ok (.complex (cpowA bq e).1 (cpowA bq e).2)
    else if qisZero bq then
      if qlt e 0 then .error (.zeroDivisionError "0.0 cannot be raised to a negative power")
      else .ok (.float 0)
    else .ok (.float (rpowA bq e))

/-- Application of an allow-listed binary operator, following Python's numeric
promotion: complex if either operand is complex, else float if either is a
float, else int. Division always produces a float; division and modulo by
zero raise ZeroDivisionError; modulo is undefined on complex numbers. -/
def applyBin : BinOpK → PyVal → PyVal → Except PyErr PyVal
  | .add, a, b =>
    if isComplexV a || isComplexV b then
      .ok (.complex (qadd (toC a).1 (toC b).1) (qadd (toC a).2 (toC b).2))
    else if isFloatV a || isFloatV b then .ok (.float (qadd (realQ a) (realQ b)))
    else .ok (.int (intOf a + intOf b))
  | .sub, a, b =>
    if isComplexV a || isComplexV b then
      .ok (.complex (qsub (toC a).1 (toC b).1) (qsub (toC a).2 (toC b).2))
    else if isFloatV a || isFloatV b then .ok (.float (qsub (realQ a) (realQ b)))
    else .ok (.int (intOf a - intOf b))
  | .mult, a, b =>
    if isComplexV a || isComplexV b then
      .ok (.complex (qsub (qmul (toC a).1 (toC b).1) (qmul (toC a).2 (toC b).2))
                    (qadd (qmul (toC a).1 (toC b).2) (qmul (toC a).2 (toC b).1)))
    else if isFloatV a || isFloatV b then .ok (.float (qmul (realQ a) (realQ b)))
    else .ok (.int (intOf a * intOf b))
  | .div, a, b =>
    if isComplexV a || isComplexV b then
      if qisZero (toC b).1 && qisZero (toC b).2 then
        .error (.zeroDivisionError "complex division by zero")
      else
        .ok (.complex
          (qdiv (qadd (qmul (toC a).1 (toC b).1) (qmul (toC a).2 (toC b).2))
                (qadd (qmul (toC b).1 (toC b).1) (qmul (toC b).2 (toC b).2)))
          (qdiv (qsub (qmul (toC a).2 (toC b).1) (qmul (toC a).1 (toC b).2))
                (qadd (qmul (toC b).1 (toC b).1) (qmul (toC b).2 (toC b).2))))
    else if isRealZero b then .error (.zeroDivisionError "division by zero")
    else .ok (.float (qdiv (realQ a) (realQ b)))
  | .mod, a, b =>
    if isComplexV a || isComplexV b then
      .error (.typeError "unsupported operand type for percent-mod on complex")
    else if isRealZero b then .error (.zeroDivisionError "modulo by zero")
    else if isFloatV a || isFloatV b then
      .ok (.float (qsub (realQ a) (qmul (realQ b) (Rat.ofInt (Rat.floor (qdiv (realQ a) (realQ b)))))))
    else .ok (.int (Int.fmod (intOf a) (intOf b)))
  | .pow, a, b => pyPow a b
  | _, _, _ => .error (.valueError "Operator not allowed")

/-- Application of an allow-listed unary operator (`operator.neg` / `pos`).
On booleans both return ints, as in Python. The last branch is unreachable:
`safe_eval` checks the allow-list first. -/
def applyUn : UnOpK → PyVal → Except PyErr PyVal
  | .usub, .int n => .ok (.int (-n))
  | .usub, .float q => .ok (.float (qneg q))
  | .usub, .bool b => .ok (.int (-(if b then (1 : Int) else 0)))
  | .usub, .complex re im => .ok (.complex (qneg re) (qneg im))
  | .uadd, .int n => .ok (.int n)
  | .uadd, .float q => .ok (.float q)
  | .uadd, .bool b => .ok (.int (if b then 1 else 0))
  | .uadd, .complex re im => .ok (.complex re im)
  | _, _ => .error (.valueError "Unary operator not allowed")

/-! ## The function table (ALLOWED_FUNCTIONS of src/main.py, lines 21-25) -/

/-- The allow-listed function names (keys of ALLOWED_FUNCTIONS). -/
def ALLOWED_FUNCTIONS : List String :=
  ["sqrt", "log", "log10", "sin", "cos", "tan", "ceil", "floor", "abs", "round"]

/-- Coercion a `math` module function applies to its argument
(`float(x)`): complex arguments raise TypeError. -/
def toFloatArg : PyVal → Except PyErr ℚ
  | .complex _ _ => .error (.typeError "cannot convert complex to float")
  | v => .ok (realQ v)

/-- Python's two-argument round: ndigits must be an integer (or bool); a float
first argument rounds half-to-even at the decimal position and stays float; an
int first argument stays int. -/
def roundTwo : PyVal → PyVal → Except PyErr PyVal
  | .complex _ _, _ => .error (.typeError "type complex does not define round")
  | _, .complex _ _ => .error (.typeError "complex object cannot be interpreted as an integer")
  | _, .float _ => .error (.typeError "float object cannot be interpreted as an integer")
  | .float q, nd => .ok (.float (rheAt q (intOf nd)))
  | x, nd => .ok (.int (rheAt (Rat.ofInt (intOf x)) (intOf nd)).num)

/-- Dispatch of a call to an ALLOWED_FUNCTIONS entry with the given evaluated
arguments, i.e. the call `ALLOWED_FUNCTIONS[name](*args)`. Wrong arities raise
TypeError exactly where CPython does: note that `log` and `round` genuinely
accept a second argument. Domain errors raise ValueError "math domain error".
Transcendental result values use the documented stand-ins. -/
def applyFun : String → List PyVal → Except PyErr PyVal
  | "sqrt", [x] =>
    match toFloatArg x with
    | .error e => .error e
    | .ok q => if qlt q 0 then .error (.valueError "math domain error")
               else .ok (.float (ratSqrt q))
  | "log", [x] =>
    match toFloatArg x with
    | .error e => .error e
    | .ok q => if qle q 0 then .error (.valueError "math domain error")
               else .ok (.float (logA q))
  | "log", [x, b] =>
    match toFloatArg x, toFloatArg b with
    | .error e, _ => .error e
    | .ok _, .error e => .error e
    | .ok q, .ok qb =>
      if qle q 0 then .error (.valueError "math domain error")
      else if qle qb 0 then .error (.valueError "math domain error")
      else if qb = 1 then .error (.zeroDivisionError "float division by zero")
      else .ok (.float (logBaseA q qb))
  | "log10", [x] =>
    match toFloatArg x with
    | .error e => .error e
    | .ok q => if qle q 0 then .error (.valueError "math domain error")
               else .ok (.float (log10A q))
  | "sin", [x] =>
    match toFloatArg x with
    | .error e => .error e
    | .ok q => .ok (.float (sinA q))
  | "cos", [x] =>
    match toFloatArg x with
    | .error e => .error e
    | .ok q => .ok (.float (cosA q))
  | "tan", [x] =>
    match toFloatArg x with
    | .error e => .error e
    | .ok q => .ok (.float (tanA q))
  | "ceil", [x] =>
    match x with
    | .complex _ _ => .error (.typeError "cannot convert complex to int")
    | .float q => .ok (.int (Rat.ceil q))
    | v => .ok (.int (intOf v))
  | "floor", [x] =>
    match x with
    | .complex _ _ => .error (.typeError "cannot convert complex to int")
    | .float q => .ok (.int (Rat.floor q))
    | v => .ok (.int (intOf v))
  | "abs", [x] =>
    match x with
    | .int n => .ok (.int n.natAbs)
    | .float q => .ok (.float (if qlt q 0 then qneg q else q))
    | .bool b => .ok (.int (if b then 1 else 0))
    | .complex re im => .ok (.float (ratSqrt (qadd (qmul re re) (qmul im im))))
  | "round", [x] =>
    match x with
    | .complex _ _ => .error (.typeError "type complex does not define round")
    | .float q => .ok (.int (rhe q))
    | v => .ok (.int (intOf v))
  | "round", [x, nd] => roundTwo x nd
  | "sqrt", _ | "log10", _ | "sin", _ | "cos", _ | "tan", _
  | "ceil", _ | "floor", _ | "abs", _ => .error (.typeError "invalid function arguments")
  | "log", _ | "round", _ => .error (.typeError "invalid function arguments")
  | _, _ => .error (.valueError "Function not allowed")

/-! ## The evaluator (safe_eval of src/main.py, lines 27-54) -/

mutual
/-- Shallow embedding of `safe_eval`, branch for branch:
Constant values that are ints or floats (Python's isinstance check — which
booleans pass, `bool` being an `int` subclass) are returned; other constants
raise ValueError "Only numbers are allowed". BinOp/UnaryOp check the operator
tag against ALLOWED_OPERATORS before evaluating operands. A Call requires its
callee to be a bare `ast.Name`, the name to be a key of ALLOWED_FUNCTIONS,
then evaluates `node.args` in order (keywords are never touched) and applies
the table entry. Every other node kind hits the final
`raise ValueError("Invalid expression")`. -/
def safe_eval : Expr → Except PyErr PyVal
  | .const (.int n) => .ok (.int n)
  | .const (.float q) => .ok (.float q)
  | .const (.bool b) => .ok (.bool b)
  | .const (.str _) => .error (.valueError "Only numbers are allowed")
  | .const (.complex _ _) => .error (.valueError "Only numbers are allowed")
  | .const .noneLit => .error (.valueError "Only numbers are allowed")
  | .binop op l r =>
    if allowedBinOp op then
      match safe_eval l with
      | .error e => .error e
      | .ok lv =>
        match safe_eval r with
        | .error e => .error e
        | .ok rv => applyBin op lv rv
    else .error (.valueError "Operator not allowed")
  | .unaryop op x =>
    if allowedUnaryOp op then
      match safe_eval x with
      | .error e => .error e
      | .ok v => applyUn op v
    else .error (.valueError "Unary operator not allowed")
  | .call f args _keywords =>
    match f with
    | .name id =>
      if id ∈ ALLOWED_FUNCTIONS then
        match evalArgs args with
        | .error e => .error e
        | .ok vs => applyFun id vs
      else .error (.valueError "Function not allowed")
    | _ => .error (.valueError "Invalid function")
  | .name _ => .error (.valueError "Invalid expression")
  | .attrAccess _ _ => .error (.valueError "Invalid expression")
  | .compare _ _ => .error (.valueError "Invalid expression")
  | .lambda _ => .error (.valueError "Invalid expression")

/-- Evaluation of the positional argument list, in order, stopping at the
first error — the list comprehension `[safe_eval(a) for a in node.args]`. -/
def evalArgs : ExprList → Except PyErr (List PyVal)
  | .nil => .ok []
  | .cons a rest =>
    match safe_eval a with
    | .error e => .error e
    | .ok v =>
      match evalArgs rest with
      | .error e => .error e
      | .ok vs => .ok (v :: vs)
end

/-! ## The lexer (model of Python's tokenizer for this expression subset) -/

/-- Lexical tokens of the expression grammar reachable from
`evaluate_expression`: numeric literals (already classified), identifiers,
single-quoted string literals, the operators + - * / % **, parentheses, the
comma, and = (only legal inside keyword arguments). -/
inductive Tok where
  | num (c : PyConst)
  | ident (s : String)
  | strlit (s : String)
  | plus | minus | star | slash | percent | dstar
  | lparen | rparen | comma | eqSign
  deriving DecidableEq

/-- The ASCII single-quote character. -/
def quoteChar : Char := Char.ofNat 39

/-- The ASCII tab character. -/
def tabChar : Char := Char.ofNat 9

/-- Decimal digit string to natural number. -/
def digitsToNat (ds : List Char) : Nat :=
  ds.foldl (fun acc c => acc * 10 + (c.toNat - 48)) 0

/-- Value of a fractional digit string (digits after the decimal point). -/
def fracVal (ds : List Char) : ℚ :=
  Rat.divInt (Int.ofNat (digitsToNat ds)) (Int.ofNat (10 ^ ds.length))

/-- Identifier start characters (letters and underscore). -/
def isIdentStart (c : Char) : Bool := c.isAlpha || c = '_'

/-- Identifier continuation characters. -/
def isIdentChar (c : Char) : Bool := c.isAlpha || c.isDigit || c = '_'

/-- Is the first character a digit? -/
def headIsDigit : List Char → Bool
  | c :: _ => c.isDigit
  | [] => false

/-- Finish lexing a numeric literal: attach an imaginary suffix j/J (Python
imaginary literals such as 2j become complex constants), and reject a literal
immediately followed by a further identifier character, as CPython's lexer
does ("2x" is a SyntaxError). -/
def finishNum (isFloat : Bool) (ip fp : List Char) (rest : List Char) :
    Except PyErr (Tok × List Char) :=
  let v : ℚ := qadd (Rat.ofInt (Int.ofNat (digitsToNat ip))) (fracVal fp)
  let base : Tok := if isFloat then .num (.float v) else .num (.int (Int.ofNat (digitsToNat ip)))
  match rest with
  | c :: r =>
    if c = 'j' || c = 'J' then
      match r with
      | c2 :: _ =>
        if isIdentChar c2 then .error (.synError "invalid imaginary literal")
        else .ok (.num (.complex 0 v), r)
      | [] => .ok (.num (.complex 0 v), r)
    else if isIdentChar c then .error (.synError "invalid decimal literal")
    else .ok (base, c :: r)
  | [] => .ok (base, [])

/-- Lex one numeric literal (integer, float with optional leading/trailing
digit groups around the point, or imaginary). -/
def lexNum (cs : List Char) : Except PyErr (Tok × List Char) :=
  let (ip, r1) := cs.span (·.isDigit)
  match r1 with
  | '.' :: r2 =>
    let (fp, r3) := r2.span (·.isDigit)
    if ip.isEmpty && fp.isEmpty then .error (.synError "invalid syntax")
    else finishNum true ip fp r3
  | _ => finishNum false ip [] r1

/-- Prepend a token to a lexer result. -/
def consTok (t : Tok) : Except PyErr (List Tok) → Except PyErr (List Tok)
  | .error e => .error e
  | .ok ts => .ok (t :: ts)

/-- The fuel-driven lexer. Each step consumes at least one character, so fuel
equal to the input length plus one never runs out. -/
def tokenizeF : Nat → List Char → Except PyErr (List Tok)
  | 0, _ => .error (.synError "lexer fuel exhausted")
  | _ + 1, [] => .ok []
  | fuel + 1, c :: cs =>
    if c = ' ' || c = tabChar then tokenizeF fuel cs
    else if c.isDigit || (c = '.' && headIsDigit cs) then
      match lexNum (c :: cs) with
      | .error e => .error e
      | .ok (t, rest) => consTok t (tokenizeF fuel rest)
    else if isIdentStart c then
      let (ids, rest) := (c :: cs).span isIdentChar
      consTok (Tok.ident (String.mk ids)) (tokenizeF fuel rest)
    else if c = quoteChar then
      let (content, rest) := cs.span (· ≠ quoteChar)
      match rest with
      | _ :: r2 => consTok (Tok.strlit (String.mk content)) (tokenizeF fuel r2)
      | [] => .error (.synError "unterminated string literal")
    else if c = '*' then
      match cs with
      | '*' :: r => consTok .dstar (tokenizeF fuel r)
      | _ => consTok .star (tokenizeF fuel cs)
    else if c = '+' then consTok .plus (tokenizeF fuel cs)
    else if c = '-' then consTok .minus (tokenizeF fuel cs)
    else if c = '/' then consTok .slash (tokenizeF fuel cs)
    else if c = '%' then consTok .percent (tokenizeF fuel cs)
    else if c = '(' then consTok .lparen (tokenizeF fuel cs)
    else if c = ')' then consTok .rparen (tokenizeF fuel cs)
    else if c = ',' then consTok .comma (tokenizeF fuel cs)
    else if c = '=' then consTok .eqSign (tokenizeF fuel cs)
    else .error (.synError "invalid character")

/-! ## The parser (model of ast.parse in eval mode, restricted grammar)

Recursive descent with Python's precedence: plus and minus over * / %, unary
plus and minus binding tighter, ** binding tighter than unary on its left and
looser on its right
(right-associative through the factor rule), parentheses, and calls
name(arg, ..., kw=value, ...) where keyword arguments must follow positional
ones. Fuel decreases on every call; the entry point supplies enough. -/

mutual
/-- Additive level (+, -), left-associative. -/
def pExpr : Nat → List Tok → Except PyErr (Expr × List Tok)
  | 0, _ => .error (.synError "expression too deeply nested")
  | n + 1, ts =>
    match pTerm n ts with
    | .error e => .error e
    | .ok (e, ts1) => pExprRest n e ts1

/-- Left fold of the additive level. -/
def pExprRest : Nat → Expr → List Tok → Except PyErr (Expr × List Tok)
  | 0, _, _ => .error (.synError "expression too deeply nested")
  | n + 1, acc, .plus :: ts =>
    match pTerm n ts with
    | .error e => .error e
    | .ok (r, ts1) => pExprRest n (.binop .add acc r) ts1
  | n + 1, acc, .minus :: ts =>
    match pTerm n ts with
    | .error e => .error e
    | .ok (r, ts1) => pExprRest n (.binop .sub acc r) ts1
  | _ + 1, acc, ts => .ok (acc, ts)

/-- Multiplicative level (*, /, %), left-associative. -/
def pTerm : Nat → List Tok → Except PyErr (Expr × List Tok)
  | 0, _ => .error (.synError "expression too deeply nested")
  | n + 1, ts =>
    match pFactor n ts with
    | .error e => .error e
    | .ok (e, ts1) => pTermRest n e ts1

/-- Left fold of the multiplicative level. -/
def pTermRest : Nat → Expr → List Tok → Except PyErr (Expr × List Tok)
  | 0, _, _ => .error (.synError "expression too deeply nested")
  | n + 1, acc, .star :: ts =>
    match pFactor n ts with
    | .error e => .error e
    | .ok (r, ts1) => pTermRest n (.binop .mult acc r) ts1
  | n + 1, acc, .slash :: ts =>
    match pFactor n ts with
    | .error e => .error e
    | .ok (r, ts1) => pTermRest n (.binop .div acc r) ts1
  | n + 1, acc, .percent :: ts =>
    match pFactor n ts with
    | .error e => .error e
    | .ok (r, ts1) => pTermRest n (.binop .mod acc r) ts1
  | _ + 1, acc, ts => .ok (acc, ts)

/-- Unary level: factor is (+|-) factor or power, as in Python's grammar. -/
def pFactor : Nat → List Tok → Except PyErr (Expr × List Tok)
  | 0, _ => .error (.synError "expression too deeply nested")
  | n + 1, .plus :: ts =>
    match pFactor n ts with
    | .error e => .error e
    | .ok (e, ts1) => .ok (.unaryop .uadd e, ts1)
  | n + 1, .minus :: ts =>
    match pFactor n ts with
    | .error e => .error e
    | .ok (e, ts1) => .ok (.unaryop .usub e, ts1)
  | n + 1, ts => pPower n ts

/-- Power level: primary ** factor (right-associative). -/
def pPower : Nat → List Tok → Except PyErr (Expr × List Tok)
  | 0, _ => .error (.synError "expression too deeply nested")
  | n + 1, ts =>
    match pAtom n ts with
    | .error e => .error e
    | .ok (b, .dstar :: ts1) =>
      match pFactor n ts1 with
      | .error e => .error e
      | .ok (e, ts2) => .ok (.binop .pow b e, ts2)
    | .ok (b, ts1) => .ok (b, ts1)

/-- Primary: literals, the keyword constants True/False/None, names, calls,
parenthesized expressions. -/
def pAtom : Nat → List Tok → Except PyErr (Expr × List Tok)
  | 0, _ => .error (.synError "expression too deeply nested")
  | _ + 1, .num c :: ts => .ok (.const c, ts)
  | _ + 1, .strlit s :: ts => .ok (.const (.str s), ts)
  | _ + 1, .ident "True" :: ts => .ok (.const (.bool true), ts)
  | _ + 1, .ident "False" :: ts => .ok (.const (.bool false), ts)
  | _ + 1, .ident "None" :: ts => .ok (.const .noneLit, ts)
  | n + 1, .ident f :: .lparen :: ts =>
    match pArgs n ts with
    | .error e => .error e
    | .ok (args, kws, ts1) => .ok (.call (.name f) args kws, ts1)
  | _ + 1, .ident x :: ts => .ok (.name x, ts)
  | n + 1, .lparen :: ts =>
    match pExpr n ts with
    | .error e => .error e
    | .ok (e, .rparen :: ts1) => .ok (e, ts1)
    | .ok (_, _) => .error (.synError "expected closing parenthesis")
  | _ + 1, _ => .error (.synError "invalid syntax")

/-- Argument list of a call, starting right after the opening parenthesis. -/
def pArgs : Nat → List Tok → Except PyErr (ExprList × KwList × List Tok)
  | 0, _ => .error (.synError "expression too deeply nested")
  | _ + 1, .rparen :: ts => .ok (.nil, .nil, ts)
  | n + 1, ts => pArgsLoop n ts

/-- Nonempty argument items: positional expressions until the first keyword
argument, then only keyword arguments (Python rejects a positional argument
after a keyword argument). -/
def pArgsLoop : Nat → List Tok → Except PyErr (ExprList × KwList × List Tok)
  | 0, _ => .error (.synError "expression too deeply nested")
  | n + 1, .ident nm :: .eqSign :: ts =>
    match pKwLoop n (.ident nm :: .eqSign :: ts) with
    | .error e => .error e
    | .ok (kws, ts1) => .ok (.nil, kws, ts1)
  | n + 1, ts =>
    match pExpr n ts with
    | .error e => .error e
    | .ok (a, .comma :: ts1) =>
      match ts1 with
      | .rparen :: ts2 => .ok (.cons a .nil, .nil, ts2)
      | _ =>
        match pArgsLoop n ts1 with
        | .error e => .error e
        | .ok (args, kws, ts2) => .ok (.cons a args, kws, ts2)
    | .ok (a, .rparen :: ts1) => .ok (.cons a .nil, .nil, ts1)
    | .ok (_, _) => .error (.synError "expected comma or closing parenthesis")

/-- Keyword argument items (name=value), to the closing parenthesis. -/
def pKwLoop : Nat → List Tok → Except PyErr (KwList × List Tok)
  | 0, _ => .error (.synError "expression too deeply nested")
  | n + 1, .ident nm :: .eqSign :: ts =>
    match pExpr n ts with
    | .error e => .error e
    | .ok (v, .comma :: ts1) =>
      match ts1 with
      | .rparen :: ts2 => .ok (.cons nm v .nil, ts2)
      | _ =>
        match pKwLoop n ts1 with
        | .error e => .error e
        | .ok (kws, ts2) => .ok (.cons nm v kws, ts2)
    | .ok (v, .rparen :: ts1) => .ok (.cons nm v .nil, ts1)
    | .ok (_, _) => .error (.synError "expected comma or closing parenthesis")
  | _ + 1, _ => .error (.synError "positional argument follows keyword argument")
end

/-- Parse a character list into a single expression. Empty input, leftover
tokens (multiple top-level expressions) and every malformed input are
SyntaxErrors, exactly the failure mode of ast.parse(expr, mode="eval").
The ast.Expression wrapper is unwrapped here, as the first branch of
safe_eval does. -/
def parseChars (cs : List Char) : Except PyErr Expr :=
  match tokenizeF (cs.length + 1) cs with
  | .error e => .error e
  | .ok toks =>
    match pExpr ((toks.length + 1) * 10) toks with
    | .error e => .error e
    | .ok (e, []) => .ok e
    | .ok (_, _ :: _) => .error (.synError "invalid syntax")

/-! ## The pipeline (evaluate_expression of src/main.py, lines 56-60) -/

/-- Parse and evaluate a string, with no percent rewrite. -/
def evalString (s : String) : Except PyErr PyVal :=
  match parseChars s.toList with
  | .error e => .error e
  | .ok e => safe_eval e

/-- The blind textual substitution expr.replace("%", "/100"): every percent
character becomes the four characters /100, left to right, with no awareness
of surrounding tokens. -/
def percentRewrite : List Char → List Char
  | [] => []
  | '%' :: cs => '/' :: '1' :: '0' :: '0' :: percentRewrite cs
  | c :: cs => c :: percentRewrite cs

/-- String-level percent replacement. -/
def replacePercent (s : String) : String := String.mk (percentRewrite s.toList)

/-- evaluate_expression: replace percent signs, parse, safe_eval. -/
def evaluate_expression (s : String) : Except PyErr PyVal := evalString (replacePercent s)

/-! ## History (push_history of src/api.py lines 59-65, _push_history of
src/main.py lines 237-241) -/

/-- The history cap MAX_HISTORY = 50 (src/api.py line 19; src/main.py uses
the literal 50 in the slice history[:50]). -/
def MAX_HISTORY : Nat := 50

/-- The pure list content of push_history: history.insert(0, item) followed by
history[:MAX_HISTORY]. The timestamp stamped into the item and the JSON
file read/write around this logic are plumbing outside the model; the claim
is about the list structure, which is identical in src/api.py push_history
and src/main.py MobileCalcApp._push_history. -/
def push_history {α : Type} (item : α) (history : List α) : List α :=
  (item :: history).take MAX_HISTORY

/-! ## Result classifiers used in theorem statements -/

/-- Did evaluation succeed? -/
def isOkRes : Except PyErr PyVal → Bool
  | .ok _ => true
  | .error _ => false

/-- Did evaluation succeed with a complex number? -/
def isComplexRes : Except PyErr PyVal → Bool
  | .ok (.complex _ _) => true
  | _ => false

/-! ## Bridge lemmas: the kernel-computable rational helpers are the standard
field operations on `ℚ`. -/

theorem qadd_eq_add (a b : ℚ) : qadd a b = a + b := by
  conv_rhs => rw [← Rat.num_divInt_den a, ← Rat.num_divInt_den b]
  rw [Rat.divInt_add_divInt _ _ (Int.natCast_ne_zero.mpr a.den_nz)
    (Int.natCast_ne_zero.mpr b.den_nz)]
  rfl

theorem qsub_eq_sub (a b : ℚ) : qsub a b = a - b := by
  conv_rhs => rw [← Rat.num_divInt_den a, ← Rat.num_divInt_den b]
  rw [Rat.divInt_sub_divInt _ _ (Int.natCast_ne_zero.mpr a.den_nz)
    (Int.natCast_ne_zero.mpr b.den_nz)]
  rfl

theorem qmul_eq_mul (a b : ℚ) : qmul a b = a * b := by
  conv_rhs => rw [← Rat.num_divInt_den a, ← Rat.num_divInt_den b]
  rw [Rat.divInt_mul_divInt _ _ (Int.natCast_ne_zero.mpr a.den_nz)
    (Int.natCast_ne_zero.mpr b.den_nz)]
  rfl

theorem qdiv_eq_div (a b : ℚ) : qdiv a b = a / b := by
  conv_rhs => rw [← Rat.num_divInt_den a, ← Rat.num_divInt_den b]
  rw [Rat.divInt_div_divInt]
  rfl

theorem qneg_eq_neg (a : ℚ) : qneg a = -a := rfl

theorem qpowN_eq_pow (a : ℚ) (n : Nat) : qpowN a n = a ^ n := by
  induction n with
  | zero => simp [qpowN]
  | succ n ih => rw [qpowN, ih, qmul_eq_mul, pow_succ]

theorem qlt_iff_lt (a b : ℚ) : qlt a b = true ↔ a < b := Iff.rfl

theorem qisZero_iff (a : ℚ) : qisZero a = true ↔ a = 0 := by
  constructor
  · intro h
    exact Rat.zero_of_num_zero (by simpa [qisZero] using h)
  · intro h
    simp [qisZero, h]

/-! ## Helper lemmas about the evaluator -/

/-- A value passing `isRealZero` is not complex. -/
theorem isRealZero_not_complex (v : PyVal) (h : isRealZero v = true) :
    isComplexV v = false := by
  cases v <;> simp_all [isRealZero, isComplexV]

/-- Division by a real zero right operand. -/
theorem applyBin_div_zero (a b : PyVal) (ha : isComplexV a = false)
    (hb : isRealZero b = true) :
    applyBin .div a b = .error (.zeroDivisionError "division by zero") := by
  have hbc := isRealZero_not_complex b hb
  simp [applyBin, ha, hbc, hb]

/-- Modulo by a real zero right operand. -/
theorem applyBin_mod_zero (a b : PyVal) (ha : isComplexV a = false)
    (hb : isRealZero b = true) :
    applyBin .mod a b = .error (.zeroDivisionError "modulo by zero") := by
  have hbc := isRealZero_not_complex b hb
  simp [applyBin, ha, hbc, hb]

/-! ## Claim theorems -/

/-- C1: for every input, evaluation yields a value or an error and nothing
else; a bare identifier, an attribute access, and every syntax-tree node kind
other than number literal, binary operation, unary operation or allow-listed
call is rejected with "Invalid expression"; a call whose callee is not a bare
name is rejected with "Invalid function"; a call to any name outside
ALLOWED_FUNCTIONS — including import_os and dunder-import spellings — is
rejected with "Function not allowed"; there is no generic evaluate-as-code
path. -/
theorem C1_allowlist_rejection :
    (∀ e : Expr, (∃ v, safe_eval e = .ok v) ∨ (∃ err, safe_eval e = .error err)) ∧
    (∀ id, safe_eval (.name id) = .error (.valueError "Invalid expression")) ∧
    (∀ v a, safe_eval (.attrAccess v a) = .error (.valueError "Invalid expression")) ∧
    (∀ l r, safe_eval (.compare l r) = .error (.valueError "Invalid expression")) ∧
    (∀ b, safe_eval (.lambda b) = .error (.valueError "Invalid expression")) ∧
    (∀ f args kws, (∀ n, f ≠ .name n) →
      safe_eval (.call f args kws) = .error (.valueError "Invalid function")) ∧
    (∀ n args kws, n ∉ ALLOWED_FUNCTIONS →
      safe_eval (.call (.name n) args kws) = .error (.valueError "Function not allowed")) ∧
    evaluate_expression "import_os()" = .error (.valueError "Function not allowed") ∧
    evaluate_expression "__import__('os')" = .error (.valueError "Function not allowed") := by
  refine ⟨?_, fun _ => rfl, fun _ _ => rfl, fun _ _ => rfl, fun _ => rfl, ?_, ?_, rfl, rfl⟩
  · intro e
    cases h : safe_eval e with
    | ok v => exact .inl ⟨v, rfl⟩
    | error err => exact .inr ⟨err, rfl⟩
  · intro f args kws h
    cases f with
    | name n => exact absurd rfl (h n)
    | const c => rfl
    | binop op l r => rfl
    | unaryop op x => rfl
    | call g a2 k2 => rfl
    | attrAccess v a => rfl
    | compare l r => rfl
    | lambda b => rfl
  · intro n args kws h
    simp [safe_eval, h]

/-- Witness for C1: the dunder-import call is rejected by the allow-list. -/
theorem C1_allowlist_rejection_witness :
    safe_eval (.call (.name "__import__") (.cons (.const (.str "os")) .nil) .nil)
      = .error (.valueError "Function not allowed") :=
  C1_allowlist_rejection.2.2.2.2.2.2.1 "__import__"
    (.cons (.const (.str "os")) .nil) .nil (by decide)

/-- C2 counterexample: the claim's example value is wrong. The textual rewrite
turns "8%+2" into "8/100+2", which evaluates to 2.08 = 52/25, not 0.1. -/
theorem C2_percent_counterexample :
    evaluate_expression "8%+2" = .ok (.float (Rat.divInt 52 25)) ∧
    Rat.divInt 52 25 ≠ Rat.divInt 1 10 :=
  ⟨rfl, by decide⟩

/-- C2 amended: evaluate_expression is evaluation of the input with every
percent character textually replaced by /100 before parsing (by construction,
mirroring the source), "50%" evaluates to 0.5, and "8%+2" evaluates to 2.08
(not 0.1 as the claim's second example states). -/
theorem C2_percent_rewrite :
    (∀ s, evaluate_expression s = evalString (replacePercent s)) ∧
    replacePercent "50%" = "50/100" ∧
    replacePercent "8%+2" = "8/100+2" ∧
    evaluate_expression "50%" = .ok (.float (Rat.divInt 1 2)) ∧
    evaluate_expression "8%+2" = .ok (.float (Rat.divInt 52 25)) :=
  ⟨fun _ => rfl, rfl, rfl, rfl, rfl⟩

/-- Witness for C2: the rewrite identity at the input "50%". -/
theorem C2_percent_rewrite_witness :
    evaluate_expression "50%" = evalString (replacePercent "50%") :=
  C2_percent_rewrite.1 "50%"

/-- C3 counterexample: evaluating "(-1) ** 0.5" does NOT raise a math-domain
error; as in CPython 3, a negative base with a fractional exponent returns a
complex number. -/
theorem C3_pow_counterexample :
    isComplexRes (evaluate_expression "(-1) ** 0.5") = true := rfl

/-- C3 amended: a power whose left operand evaluates to a negative real and
whose right operand evaluates to a float with a non-integral value returns a
complex number (no error is raised). -/
theorem C3_pow_complex (l r : Expr) (lv rv : PyVal)
    (hl : safe_eval l = .ok lv) (hr : safe_eval r = .ok rv)
    (hlc : isComplexV lv = false) (hrc : isComplexV rv = false)
    (hneg : qlt (realQ lv) 0 = true) (hfrac : (realQ rv).den ≠ 1) :
    ∃ re im, safe_eval (.binop .pow l r) = .ok (.complex re im) := by
  have hrfl : isFloatV rv = true := by
    cases rv with
    | float q => rfl
    | int n => exact absurd rfl hfrac
    | bool b => cases b <;> exact absurd rfl hfrac
    | complex re im => simp [isComplexV] at hrc
  refine ⟨(cpowA (realQ lv) (realQ rv)).1, (cpowA (realQ lv) (realQ rv)).2, ?_⟩
  simp [safe_eval, allowedBinOp, hl, hr, applyBin, pyPow, hlc, hrc, hrfl, hfrac, hneg]

/-- Witness for C3: (-1) ** 0.5 at the syntax-tree level. -/
theorem C3_pow_complex_witness :
    ∃ re im, safe_eval (.binop .pow (.unaryop .usub (.const (.int 1)))
      (.const (.float (Rat.divInt 1 2)))) = .ok (.complex re im) :=
  C3_pow_complex _ _ (.int (-1)) (.float (Rat.divInt 1 2)) rfl rfl rfl rfl rfl (by decide)

/-- C4 counterexample: the boolean literal True is NOT rejected — Python's
bool is a subclass of int, so it passes the isinstance((int, float)) check of
the Constant branch and is returned as a value. -/
theorem C4_boolean_counterexample :
    evaluate_expression "True" = .ok (.bool true) := rfl

/-- C4 amended: string literals, complex literals and None raise "Only numbers
are allowed", but boolean literals pass the isinstance check (bool being an
int subclass in Python) and are returned unchanged. -/
theorem C4_literal_handling :
    (∀ s, safe_eval (.const (.str s)) = .error (.valueError "Only numbers are allowed")) ∧
    (∀ re im, safe_eval (.const (.complex re im)) =
      .error (.valueError "Only numbers are allowed")) ∧
    safe_eval (.const .noneLit) = .error (.valueError "Only numbers are allowed") ∧
    evaluate_expression "'abc'" = .error (.valueError "Only numbers are allowed") ∧
    evaluate_expression "2j" = .error (.valueError "Only numbers are allowed") ∧
    (∀ b, safe_eval (.const (.bool b)) = .ok (.bool b)) ∧
    evaluate_expression "False" = .ok (.bool false) :=
  ⟨fun _ => rfl, fun _ _ => rfl, rfl, rfl, rfl, fun _ => rfl, rfl⟩

/-- Witness for C4: a concrete string literal is rejected. -/
theorem C4_literal_handling_witness :
    safe_eval (.const (.str "os")) = .error (.valueError "Only numbers are allowed") :=
  C4_literal_handling.1 "os"

/-- C5 counterexample: round and log are not one-argument functions —
round(2.5, 0) evaluates to 2.0 and log(8, 2) succeeds, so calling an
allow-listed function with two arguments does not always raise. -/
theorem C5_arity_counterexample :
    evaluate_expression "round(2.5, 0)" = .ok (.float 2) ∧
    isOkRes (evaluate_expression "log(8, 2)") = true :=
  ⟨rfl, rfl⟩

/-- C5 amended: sqrt, log10, sin, cos, tan, ceil, floor and abs accept exactly
one argument (any other arity raises a TypeError), while log and round accept
one or two arguments (other arities raise); sqrt with zero or two arguments
raises, as the claim's examples state. -/
theorem C5_arity :
    (∀ nm, nm ∈ ["sqrt", "log10", "sin", "cos", "tan", "ceil", "floor", "abs"] →
      ∀ args : List PyVal, args.length ≠ 1 →
        applyFun nm args = .error (.typeError "invalid function arguments")) ∧
    (∀ nm, nm ∈ ["log", "round"] → ∀ args : List PyVal,
      args.length ≠ 1 → args.length ≠ 2 →
        applyFun nm args = .error (.typeError "invalid function arguments")) ∧
    evaluate_expression "sqrt()" = .error (.typeError "invalid function arguments") ∧
    evaluate_expression "sqrt(1,2)" = .error (.typeError "invalid function arguments") := by
  refine ⟨?_, ?_, rfl, rfl⟩
  · intro nm h args h1
    simp only [List.mem_cons, List.not_mem_nil, or_false] at h
    match args, h1 with
    | [], _ => rcases h with rfl | rfl | rfl | rfl | rfl | rfl | rfl | rfl <;> rfl
    | [x], h1 => simp at h1
    | x :: y :: t, _ => rcases h with rfl | rfl | rfl | rfl | rfl | rfl | rfl | rfl <;> rfl
  · intro nm h args h1 h2
    simp only [List.mem_cons, List.not_mem_nil, or_false] at h
    match args, h1, h2 with
    | [], _, _ => rcases h with rfl | rfl <;> rfl
    | [x], h1, _ => simp at h1
    | [x, y], _, h2 => simp at h2
    | x :: y :: z :: t, _, _ => rcases h with rfl | rfl <;> rfl

/-- Witness for C5: sqrt with zero arguments raises the arity TypeError. -/
theorem C5_arity_witness :
    applyFun "sqrt" [] = .error (.typeError "invalid function arguments") :=
  C5_arity.1 "sqrt" (by simp) [] (by simp)

/-- C6: a division or modulo whose right operand evaluates to a real zero
raises ZeroDivisionError (never an infinite or NaN result — the evaluator has
no such values on these paths). -/
theorem C6_division_modulo_by_zero (l r : Expr) (lv rv : PyVal)
    (hl : safe_eval l = .ok lv) (hr : safe_eval r = .ok rv)
    (hlv : isComplexV lv = false) (hrv : isRealZero rv = true) :
    safe_eval (.binop .div l r) = .error (.zeroDivisionError "division by zero") ∧
    safe_eval (.binop .mod l r) = .error (.zeroDivisionError "modulo by zero") := by
  constructor
  · simp [safe_eval, allowedBinOp, hl, hr, applyBin_div_zero lv rv hlv hrv]
  · simp [safe_eval, allowedBinOp, hl, hr, applyBin_mod_zero lv rv hlv hrv]

/-- Witness for C6: the concrete input 10/0 from the spec. -/
theorem C6_division_modulo_by_zero_witness :
    evaluate_expression "10/0" = .error (.zeroDivisionError "division by zero") := by
  have h := (C6_division_modulo_by_zero (.const (.int 10)) (.const (.int 0))
    (.int 10) (.int 0) rfl rfl rfl rfl).1
  exact h

/-- C7: multiplication binds tighter than addition (2+2*3 = 8) and
parentheses override precedence ((2+2)*3 = 12). -/
theorem C7_precedence :
    evaluate_expression "2+2*3" = .ok (.int 8) ∧
    evaluate_expression "(2+2)*3" = .ok (.int 12) :=
  ⟨rfl, rfl⟩

/-- C8: push_history puts the new record at the front, keeps at most
MAX_HISTORY = 50 entries dropping only the oldest, preserves the relative
(most-recent-first) order of the survivors, and leaves short histories
untruncated. -/
theorem C8_history_cap {α : Type} (item : α) (history : List α) :
    (push_history item history).length ≤ MAX_HISTORY ∧
    (push_history item history).head? = some item ∧
    (∀ i, i + 1 < MAX_HISTORY → (push_history item history)[i + 1]? = history[i]?) ∧
    (history.length < MAX_HISTORY → push_history item history = item :: history) := by
  refine ⟨?_, rfl, ?_, ?_⟩
  · rw [push_history, List.length_take]
    exact min_le_left _ _
  · intro i hi
    rw [push_history, List.getElem?_take_of_lt hi, List.getElem?_cons_succ]
  · intro h
    rw [push_history]
    exact List.take_of_length_le (by simp only [List.length_cons, MAX_HISTORY] at h ⊢; omega)

/-- Witness for C8: pushing onto the empty history. -/
theorem C8_history_cap_witness :
    (push_history (0 : Nat) []).head? = some 0 :=
  (C8_history_cap 0 []).2.1

/-- C9: evaluation is deterministic — the embedding is a pure function of the
input string (the source reads only the immutable module-level tables and
threads no state), and the result of a compound node depends only on the
results of its children. -/
theorem C9_pure_deterministic :
    (∀ s : String, evaluate_expression s = evaluate_expression s) ∧
    (∀ op l l2 r r2, safe_eval l = safe_eval l2 → safe_eval r = safe_eval r2 →
      safe_eval (.binop op l r) = safe_eval (.binop op l2 r2)) ∧
    (∀ op x x2, safe_eval x = safe_eval x2 →
      safe_eval (.unaryop op x) = safe_eval (.unaryop op x2)) := by
  refine ⟨fun _ => rfl, ?_, ?_⟩
  · intro op l l2 r r2 h1 h2
    simp only [safe_eval, h1, h2]
  · intro op x x2 h
    simp only [safe_eval, h]

/-- Witness for C9: a sample input evaluated twice. -/
theorem C9_pure_deterministic_witness :
    evaluate_expression "2+2" = evaluate_expression "2+2" :=
  C9_pure_deterministic.1 "2+2"

/-- C10: keyword arguments of a call are silently discarded — the result never
depends on them and their value expressions are never evaluated (a keyword
value that would itself be rejected, like a bare name, changes nothing);
sqrt(4, anything=5) evaluates to 2.0. -/
theorem C10_keywords_discarded :
    (∀ f args kws kws2, safe_eval (.call f args kws) = safe_eval (.call f args kws2)) ∧
    evaluate_expression "sqrt(4, anything=5)" = .ok (.float 2) ∧
    safe_eval (.call (.name "sqrt") (.cons (.const (.int 4)) .nil)
      (.cons "k" (.name "os") .nil)) = .ok (.float 2) := by
  refine ⟨?_, rfl, rfl⟩
  intro f args kws kws2
  cases f <;> rfl

/-- Witness for C10: a call with and without a (disallowed-value) keyword. -/
theorem C10_keywords_discarded_witness :
    safe_eval (.call (.name "abs") .nil (.cons "k" (.name "os") .nil)) =
      safe_eval (.call (.name "abs") .nil .nil) :=
  C10_keywords_discarded.1 (.name "abs") .nil (.cons "k" (.name "os") .nil) .nil

end PyCalc
